import Mathlib

/-!
Shallow embedding of the course catalog / enrollment module.

The definitions below are translated from the TypeScript source:
  * `CourseService` / `EnrollmentService`
    (the "-domain" directory under routes/courses: domain validation),
  * `CourseRepository` / `EnrollmentRepository`
    (the "-lib" directory: persistence gateway),
  * the operation handlers `createCourse`, `updateCourse`, `deleteCourse`,
    `enrollCourse`, `getMyCourses` (the "-app" directory).

Modelling conventions:
  * JS strings are `String`; a JS `undefined` field is an outer `none`
    and a JS `null` is an inner `none` of a nested `Option`.
  * ECMAScript `parseFloat` is modelled by `jsParseFloat` over exact
    rationals (see its doc comment for the abstraction).
  * the relational store is a `Db` record; each repository call is a
    pure function of it.  A transient storage failure is modelled by the
    `dbError` fault flag: while it is set, every query/write raises the
    recorded raw error, which handlers may or may not catch.
  * thrown oRPC taxonomy errors (`errors.X({data})`) are `Taxo` values;
    they carry a `code` property in JS, which is what the handlers'
    `"code" in dbError` re-throw test recognises.  A raw storage error is
    `HErr.raw`.
-/

/-- Result record returned by every domain validator of `CourseService`
(the TypeScript shape `{valid, reason?, field?}`). -/
structure CourseValidationResult where
  valid : Bool
  reason : Option String := none
  field : Option String := none
deriving DecidableEq, Repr

/-- Numeric value of a decimal digit character. -/
def digitVal (c : Char) : Nat := c.toNat - Char.toNat '0'

/-- Consumes a leading run of decimal digits: returns the accumulated
value, the number of digits consumed, and the remaining characters. -/
def lexDigits : List Char → Nat → Nat → Nat × Nat × List Char
  | [], acc, n => (acc, n, [])
  | c :: cs, acc, n =>
    if c.isDigit then lexDigits cs (acc * 10 + digitVal c) (n + 1)
    else (acc, n, c :: cs)

/-- Whitespace characters skipped by ECMAScript `parseFloat`. -/
def isJsSpace (c : Char) : Bool :=
  c = ' ' || c = '\t' || c = '\n' || c = '\r'

/-- Model of the JS `trim()` method, as a character-list computation
(removes leading and trailing whitespace). -/
def jsTrim (s : String) : String :=
  String.mk (((s.data.dropWhile Char.isWhitespace).reverse.dropWhile
    Char.isWhitespace).reverse)

/-- Model of ECMAScript `parseFloat`, as used throughout `CourseService`
and `EnrollmentService`: skip leading whitespace, read an optional sign,
a decimal mantissa and an optional exponent part, ignoring any trailing
garbage; `none` models `NaN` (no digits could be read).  Abstractions:
the platform keyword `Infinity` is not recognised, and the result is the
exact rational value of the literal that was read rather than its
IEEE-754 rounding.  No claim settled here depends on either. -/
def jsParseFloat (s : String) : Option Rat :=
  let cs0 := s.data.dropWhile isJsSpace
  let neg : Bool := cs0.head? = some '-'
  let cs1 := if cs0.head? = some '-' || cs0.head? = some '+' then cs0.drop 1 else cs0
  let ip := lexDigits cs1 0 0
  let cs2 := ip.2.2
  let fp := if cs2.head? = some '.' then lexDigits (cs2.drop 1) 0 0 else (0, 0, cs2)
  let cs3 := fp.2.2
  if ip.2.1 = 0 && fp.2.1 = 0 then none
  else
    let mantNat : Nat := ip.1 * 10 ^ fp.2.1 + fp.1
    let mantInt : Int := if neg then -(mantNat : Int) else (mantNat : Int)
    let expo : Int :=
      match cs3 with
      | [] => 0
      | c :: rest =>
        if c = 'e' || c = 'E' then
          match rest with
          | '-' :: r2 => let ev := lexDigits r2 0 0; if ev.2.1 = 0 then 0 else -(ev.1 : Int)
          | '+' :: r2 => let ev := lexDigits r2 0 0; if ev.2.1 = 0 then 0 else (ev.1 : Int)
          | _ => let ev := lexDigits rest 0 0; if ev.2.1 = 0 then 0 else (ev.1 : Int)
        else 0
    let k : Int := expo - (fp.2.1 : Int)
    some (if 0 ≤ k then mkRat (mantInt * ((10 ^ k.toNat : Nat) : Int)) 1
          else mkRat mantInt (10 ^ (-k).toNat))

/-- Business constant `CourseService.MIN_PRICE`. -/
def MIN_PRICE : Rat := 0

/-- Business constant `CourseService.MAX_PRICE` (= 99999999.99). -/
def MAX_PRICE : Rat := mkRat 9999999999 100

/-- Business constant `CourseService.MIN_RATING`. -/
def MIN_RATING : Rat := 1

/-- Business constant `CourseService.MAX_RATING`. -/
def MAX_RATING : Rat := 5

/-- Business constant `CourseService.MAX_CATEGORY_TAGS`. -/
def MAX_CATEGORY_TAGS : Nat := 2

/-- Business constant `CourseService.VALID_CATEGORY_TAGS`. -/
def VALID_CATEGORY_TAGS : List String := ["prakerja", "spl"]

/-- `CourseService.validateCourseName`.  The JS guard
`!name || name.trim().length === 0` collapses to the trim test (the empty
string trims to itself); `name.length` counts code points where JS counts
UTF-16 units, identical on the inputs considered here. -/
def validateCourseName (name : String) : CourseValidationResult :=
  if jsTrim name = "" then
    { valid := false, reason := some "Course name is required", field := some "name" }
  else if name.length > 255 then
    { valid := false, reason := some "Course name cannot exceed 255 characters",
      field := some "name" }
  else { valid := true }

/-- `CourseService.validateCoursePrice`: parse with `parseFloat`, reject
`NaN`, negatives, and values above `MAX_PRICE`.  The template string
`Price cannot exceed ${MAX_PRICE}` stringifies to the literal below. -/
def validateCoursePrice (price : String) : CourseValidationResult :=
  match jsParseFloat price with
  | none =>
    { valid := false, reason := some "Price must be a valid number", field := some "price" }
  | some numericPrice =>
    if numericPrice < MIN_PRICE then
      { valid := false, reason := some "Price cannot be negative", field := some "price" }
    else if numericPrice > MAX_PRICE then
      { valid := false, reason := some "Price cannot exceed 99999999.99",
        field := some "price" }
    else { valid := true }

/-- `CourseService.validateCategoryTags`: non-empty, at most
`MAX_CATEGORY_TAGS`, and every tag on the whitelist; unknown tags are
listed in the reason. -/
def validateCategoryTags (categoryTags : List String) : CourseValidationResult :=
  if categoryTags = [] then
    { valid := false, reason := some "At least one category tag is required",
      field := some "categoryTag" }
  else if categoryTags.length > MAX_CATEGORY_TAGS then
    { valid := false, reason := some "Maximum 2 category tags allowed",
      field := some "categoryTag" }
  else
    let invalidTags := categoryTags.filter (fun tag => !(VALID_CATEGORY_TAGS.contains tag))
    if invalidTags = [] then { valid := true }
    else
      { valid := false,
        reason := some ("Invalid category tags: " ++ String.intercalate ", " invalidTags ++
          ". Valid tags: prakerja, spl"),
        field := some "categoryTag" }

/-- `CourseService.validateCourseRating`.  The `rating` argument is the
JS `string | null | undefined` value; `none` covers `null`/`undefined`
and the empty string is also skipped, both by the JS falsy test
`!rating`.  The range message stringifies `${1.0} and ${5.0}` the JS
way, as `1 and 5`. -/
def validateCourseRating (rating : Option String) (price : String) : CourseValidationResult :=
  match rating with
  | none => { valid := true }
  | some r =>
    if r = "" then { valid := true }
    else
      match jsParseFloat r with
      | none =>
        { valid := false, reason := some "Rating must be a valid number",
          field := some "rating" }
      | some numericRating =>
        if numericRating < MIN_RATING || numericRating > MAX_RATING then
          { valid := false, reason := some "Rating must be between 1 and 5",
            field := some "rating" }
        else if jsParseFloat price = some 0 && numericRating > 3 then
          { valid := false, reason := some "Free courses cannot have ratings above 3.0",
            field := some "rating" }
        else { valid := true }

/-- Modelled from the spec: `CourseService.validateThumbnailUrl` accepts
a string iff the platform URL constructor `new URL(thumbnail)` does not
throw; that parser is not part of this repository.  Following the spec's
words (thumbnail is an "optional absolute URL string"), a string parses
iff it starts with an ASCII-alphabetic scheme followed by a colon. -/
def urlParses (s : String) : Bool :=
  match s.data.takeWhile (fun c => c ≠ ':') with
  | [] => false
  | c :: rest =>
    c.isAlpha && rest.all (fun d => d.isAlphanum || d = '+' || d = '-' || d = '.') &&
      (c :: rest).length < s.data.length

/-- `CourseService.validateThumbnailUrl`: `null`/`undefined`/empty are
skipped by the JS falsy test `!thumbnail`; otherwise the URL must
parse. -/
def validateThumbnailUrl (thumbnail : Option String) : CourseValidationResult :=
  match thumbnail with
  | none => { valid := true }
  | some t =>
    if t = "" then { valid := true }
    else if urlParses t then { valid := true }
    else
      { valid := false, reason := some "Thumbnail must be a valid URL",
        field := some "thumbnail" }

/-- Validation view of a `CreateCourseInput | UpdateCourseInput` value:
an outer `none` models a JS `undefined` (field not supplied); for the
nullable fields, the inner `none` models a JS `null`. -/
structure CourseData where
  name : Option String := none
  price : Option String := none
  categoryTag : Option (List String) := none
  thumbnail : Option (Option String) := none
  rating : Option (Option String) := none
deriving DecidableEq, Repr

/-- `CourseService.validateCompleteCourse`: runs the per-field validators
over whatever fields are present (the rating check additionally requires
the price to be present, as in the source's
`rating !== undefined && price !== undefined` guard) and collects the
failures in program order. -/
def validateCompleteCourse (courseData : CourseData) : List CourseValidationResult :=
  let results0 : List CourseValidationResult := []
  let results1 :=
    match courseData.name with
    | none => results0
    | some n =>
      let r := validateCourseName n
      if r.valid then results0 else results0 ++ [r]
  let results2 :=
    match courseData.price with
    | none => results1
    | some p =>
      let r := validateCoursePrice p
      if r.valid then results1 else results1 ++ [r]
  let results3 :=
    match courseData.categoryTag with
    | none => results2
    | some tags =>
      let r := validateCategoryTags tags
      if r.valid then results2 else results2 ++ [r]
  let results4 :=
    match courseData.rating, courseData.price with
    | some rat, some p =>
      let r := validateCourseRating rat p
      if r.valid then results3 else results3 ++ [r]
    | _, _ => results3
  let results5 :=
    match courseData.thumbnail with
    | none => results4
    | some t =>
      let r := validateThumbnailUrl t
      if r.valid then results4 else results4 ++ [r]
  results5

/-- Persisted `course` row (table `course`); timestamps are abstract
ticks. -/
structure Course where
  id : String
  name : String
  price : String
  categoryTag : List String := []
  thumbnail : Option String := none
  rating : Option String := none
  createdBy : Option String := none
  createdAt : Nat := 0
  updatedAt : Nat := 0
deriving DecidableEq, Repr

/-- Persisted `course_enrollment` row. -/
structure Enrollment where
  id : String
  userId : String
  courseId : String
  enrolledAt : Nat := 0
deriving DecidableEq, Repr

/-- `CourseService.canCourseBeUpdated`: every course can currently be
updated. -/
def canCourseBeUpdated (_course : Course) : Bool := true

/-- `CourseService.canCourseBeDeleted`: deletable iff the enrollment
count is zero. -/
def canCourseBeDeleted (_course : Course) (enrollmentCount : Nat) : Bool :=
  enrollmentCount = 0

/-- State of the relational store, together with the ambient request
context the handlers read (fresh generated id, current clock tick).  A
transient storage failure is modelled by `dbError`: while it is set,
every repository query/write throws that raw error. -/
structure Db where
  users : List String := []
  courses : List Course := []
  enrollments : List Enrollment := []
  dbError : Option String := none
  freshId : String := "generated-id"
  now : Nat := 0
deriving DecidableEq, Repr

/-- `EnrollmentService.validateEnrollmentData` (the TypeScript
`EnrollmentValidationResult` shape coincides with
`CourseValidationResult`): course id first, then user id. -/
def validateEnrollmentData (courseId userId : String) : CourseValidationResult :=
  if jsTrim courseId = "" then
    { valid := false, reason := some "Course ID is required", field := some "courseId" }
  else if jsTrim userId = "" then
    { valid := false, reason := some "User ID is required", field := some "userId" }
  else { valid := true }

/-- Composite result of `EnrollmentService.validateUserCanEnroll`; the
`details.enrollmentId` payload is recorded in `enrollmentIdDetail`. -/
structure CanEnrollResult where
  canEnroll : Bool
  reason : Option String := none
  enrollmentIdDetail : Option String := none
deriving DecidableEq, Repr

/-- `EnrollmentService.validateUserCanEnroll`: input checks, then the
user / course / prior-enrollment lookups.  The lookups are modelled as
queries against the `Db` state; while the fault flag is set they throw
and the method's internal catch converts the failure into a
`canEnroll: false` result. -/
def validateUserCanEnroll (db : Db) (userId courseId : String) : CanEnrollResult :=
  let basicValidation := validateEnrollmentData courseId userId
  if !basicValidation.valid then
    { canEnroll := false, reason := basicValidation.reason }
  else
    match db.dbError with
    | some _ =>
      { canEnroll := false, reason := some "Validation failed due to database error" }
    | none =>
      if !(db.users.contains userId) then
        { canEnroll := false, reason := some "User not found" }
      else
        match db.courses.find? (fun c => c.id == courseId) with
        | none => { canEnroll := false, reason := some "Course not found" }
        | some _ =>
          match db.enrollments.find? (fun en => en.userId == userId && en.courseId == courseId) with
          | some en =>
            { canEnroll := false, reason := some "User is already enrolled in this course",
              enrollmentIdDetail := some en.id }
          | none => { canEnroll := true }

/-- Taxonomy errors thrown via the contracts' typed `errors.X({data})`
constructors; each carries its declared structured data.  In JS every
such value has a `code` property, which is what the handlers' catch
blocks test to re-throw them unchanged. -/
inductive Taxo where
  | NOT_FOUND (id : String)
  | VALIDATION_FAILED (field reason : String)
  | COURSE_NOT_FOUND (courseId : String)
  | ALREADY_ENROLLED (userId courseId : String) (enrollmentId : Option String)
  | ENROLLMENT_FAILED (userId courseId reason : String)
  | CANNOT_DELETE (id reason : String)
  | CANNOT_UPDATE (id reason : String)
  | UNAUTHORIZED (operation : String)
deriving DecidableEq, Repr

/-- Error escaping a handler: either a thrown taxonomy error, or a raw
storage-layer error that no catch block intercepted. -/
inductive HErr where
  | taxo (e : Taxo)
  | raw (e : String)
deriving DecidableEq, Repr

deriving instance DecidableEq for Except

/-- `CourseRepository.findById`: an absent row is `null`, never a
throw; a storage fault throws raw. -/
def courseFindById (db : Db) (id : String) : Except String (Option Course) :=
  match db.dbError with
  | some e => .error e
  | none => .ok (db.courses.find? (fun c => c.id == id))

/-- `EnrollmentRepository.findByCourse`, restricted to the `total`
field, the only part the delete handler reads; `total` counts every
enrollment of the course regardless of the pagination arguments. -/
def enrollmentTotalByCourse (db : Db) (courseId : String) : Except String Nat :=
  match db.dbError with
  | some e => .error e
  | none => .ok (db.enrollments.filter (fun en => en.courseId == courseId)).length

/-- `CourseRepository.delete`: hard delete, returning whether a row was
removed. -/
def courseDelete (db : Db) (id : String) : Except String (Bool × Db) :=
  match db.dbError with
  | some e => .error e
  | none =>
    .ok (db.courses.any (fun c => c.id == id),
      { db with courses := db.courses.filter (fun c => !(c.id == id)) })

/-- Boundary-parsed `CreateCourseInput`: `name` and `price` are always
present after schema parsing (`price` has the schema default "0.00");
the other fields keep the undefined/null distinction. -/
structure CreateCourseInput where
  name : String
  price : String
  categoryTag : Option (List String) := none
  thumbnail : Option (Option String) := none
  rating : Option (Option String) := none
deriving DecidableEq, Repr

/-- Boundary-parsed `UpdateCourseInput`: every field optional. -/
structure UpdateCourseInput where
  name : Option String := none
  price : Option String := none
  categoryTag : Option (List String) := none
  thumbnail : Option (Option String) := none
  rating : Option (Option String) := none
deriving DecidableEq, Repr

/-- `CourseRepository.create`: server-generated id and timestamps;
`input.price.toString()` is the identity on an already-string price;
fields left undefined fall back to the column defaults (`categoryTag`
to `[]`, nullable columns to `null`). -/
def courseCreate (db : Db) (input : CreateCourseInput) (createdBy : Option String) :
    Except String (Course × Db) :=
  match db.dbError with
  | some e => .error e
  | none =>
    let newCourse : Course :=
      { id := db.freshId, name := input.name, price := input.price,
        categoryTag := input.categoryTag.getD [],
        thumbnail := input.thumbnail.getD none,
        rating := input.rating.getD none,
        createdBy := createdBy,
        createdAt := db.now, updatedAt := db.now }
    .ok (newCourse, { db with courses := db.courses ++ [newCourse] })

/-- Partial write applied by `CourseRepository.update`: only supplied
fields change (the driver skips undefined values), `updatedAt` is always
refreshed. -/
def applyUpdate (c : Course) (input : UpdateCourseInput) (now : Nat) : Course :=
  { c with
    name := input.name.getD c.name,
    price := input.price.getD c.price,
    categoryTag := input.categoryTag.getD c.categoryTag,
    thumbnail := input.thumbnail.getD c.thumbnail,
    rating := input.rating.getD c.rating,
    updatedAt := now }

/-- `CourseRepository.update`: `null` when no row matched. -/
def courseUpdate (db : Db) (id : String) (input : UpdateCourseInput) :
    Except String (Option Course × Db) :=
  match db.dbError with
  | some e => .error e
  | none =>
    match db.courses.find? (fun c => c.id == id) with
    | none => .ok (none, db)
    | some c =>
      let c2 := applyUpdate c input db.now
      .ok (some c2, { db with courses := db.courses.map (fun d => if d.id == id then c2 else d) })

/-- `EnrollmentRepository.findByUserAndCourse`. -/
def enrollmentFindByUserAndCourse (db : Db) (userId courseId : String) :
    Except String (Option Enrollment) :=
  match db.dbError with
  | some e => .error e
  | none =>
    .ok (db.enrollments.find? (fun en => en.userId == userId && en.courseId == courseId))

/-- `EnrollmentRepository.create`: server-generated id and timestamp. -/
def enrollmentCreate (db : Db) (userId courseId : String) :
    Except String (Enrollment × Db) :=
  match db.dbError with
  | some e => .error e
  | none =>
    let newEnrollment : Enrollment :=
      { id := db.freshId, userId := userId, courseId := courseId, enrolledAt := db.now }
    .ok (newEnrollment, { db with enrollments := db.enrollments ++ [newEnrollment] })

/-- `EnrollmentRepository.findById`: the enrollment joined with its
course relation. -/
def enrollmentFindById (db : Db) (id : String) :
    Except String (Option (Enrollment × Option Course)) :=
  match db.dbError with
  | some e => .error e
  | none =>
    match db.enrollments.find? (fun en => en.id == id) with
    | none => .ok none
    | some en => .ok (some (en, db.courses.find? (fun c => c.id == en.courseId)))

/-- Insertion step for the `enrolled_at` descending order used by
`EnrollmentRepository.findByUser`. -/
def insertByEnrolledAtDesc (x : Enrollment) : List Enrollment → List Enrollment
  | [] => [x]
  | y :: ys =>
    if y.enrolledAt < x.enrolledAt then x :: y :: ys else y :: insertByEnrolledAtDesc x ys

/-- Sorts enrollments newest first (`orderBy desc(enrolledAt)`). -/
def sortByEnrolledAtDesc : List Enrollment → List Enrollment
  | [] => []
  | x :: xs => insertByEnrolledAtDesc x (sortByEnrolledAtDesc xs)

/-- `EnrollmentRepository.findByUser`: the user's enrollments joined
with their course, newest first, paginated; `total` counts all of them
(the count query ignores pagination). -/
def enrollmentFindByUser (db : Db) (userId : String) (limit offset : Nat) :
    Except String (List (Enrollment × Option Course) × Nat) :=
  match db.dbError with
  | some e => .error e
  | none =>
    let mine := db.enrollments.filter (fun en => en.userId == userId)
    let page := ((sortByEnrolledAtDesc mine).drop offset).take limit
    .ok (page.map (fun en => (en, db.courses.find? (fun c => c.id == en.courseId))), mine.length)

/-- Representation of a course price inside a response value: either the
stored fixed-point decimal string, or the result of converting it with
`parseFloat` into a JS number (`none` = `NaN`). -/
inductive PriceRepr where
  | str (s : String)
  | num (q : Option Rat)
deriving DecidableEq, Repr

/-- Course object inside the enroll / get-my-courses responses. -/
structure CourseView where
  id : String
  name : String
  price : PriceRepr
  categoryTag : List String
  thumbnail : Option String
  rating : Option String
  createdBy : Option String
  createdAt : Nat
  updatedAt : Nat
deriving DecidableEq, Repr

/-- Handler transformation `{...course, price: parseFloat(course.price)}`
applied by the enroll and get-my-courses handlers before returning. -/
def toNumericPriceView (c : Course) : CourseView :=
  { id := c.id, name := c.name, price := .num (jsParseFloat c.price),
    categoryTag := c.categoryTag, thumbnail := c.thumbnail, rating := c.rating,
    createdBy := c.createdBy, createdAt := c.createdAt, updatedAt := c.updatedAt }

/-- Enrollment-with-course response object (`enrollmentWithCourse`
output schema), shared by the enroll response and each row of the
get-my-courses response. -/
structure EnrollmentWithCourseView where
  id : String
  userId : String
  courseId : String
  enrolledAt : Nat
  course : Option CourseView
deriving DecidableEq, Repr

/-- Validation view of a create input as passed to
`validateCompleteCourse` by the create handler. -/
def createInputData (input : CreateCourseInput) : CourseData :=
  { name := some input.name, price := some input.price,
    categoryTag := input.categoryTag, thumbnail := input.thumbnail,
    rating := input.rating }

/-- `createCourse` handler (the variant that validates): surfaces the
first `validateCompleteCourse` failure as `VALIDATION_FAILED`, then
persists with `createdBy` from the session (absent for anonymous
callers).  Its catch re-throws recognised taxonomy errors (they carry a
`code`) and wraps any raw storage failure as
`VALIDATION_FAILED{database}`. -/
def createCourse (db : Db) (sessionUserId : Option String) (input : CreateCourseInput) :
    Except HErr Course × Db :=
  match validateCompleteCourse (createInputData input) with
  | firstError :: _ =>
    (.error (.taxo (.VALIDATION_FAILED (firstError.field.getD "unknown")
      (firstError.reason.getD "Validation failed"))), db)
  | [] =>
    match courseCreate db input sessionUserId with
    | .error _ =>
      (.error (.taxo (.VALIDATION_FAILED "database" "Failed to create course")), db)
    | .ok (newCourse, db2) => (.ok newCourse, db2)

/-- Merge `{...existingCourse, ...data}` built by the update handler
purely for validation: every field of the merged view is present. -/
def mergeForValidation (existing : Course) (data : UpdateCourseInput) : CourseData :=
  { name := some (data.name.getD existing.name),
    price := some (data.price.getD existing.price),
    categoryTag := some (data.categoryTag.getD existing.categoryTag),
    thumbnail := some (data.thumbnail.getD existing.thumbnail),
    rating := some (data.rating.getD existing.rating) }

/-- `updateCourse` handler: existence check, merged validation
(fail-fast on the first failure), `canCourseBeUpdated` guard, partial
write.  Taxonomy errors thrown inside the try are caught and re-thrown
unchanged (they carry a `code`); raw storage failures are wrapped as
`VALIDATION_FAILED{database}`. -/
def updateCourse (db : Db) (id : String) (data : UpdateCourseInput) :
    Except HErr Course × Db :=
  match courseFindById db id with
  | .error _ => (.error (.taxo (.VALIDATION_FAILED "database" "Failed to update course")), db)
  | .ok none => (.error (.taxo (.NOT_FOUND id)), db)
  | .ok (some existingCourse) =>
    match validateCompleteCourse (mergeForValidation existingCourse data) with
    | firstError :: _ =>
      (.error (.taxo (.VALIDATION_FAILED (firstError.field.getD "unknown")
        (firstError.reason.getD "Validation failed"))), db)
    | [] =>
      if !(canCourseBeUpdated existingCourse) then
        (.error (.taxo (.CANNOT_UPDATE id "Course cannot be updated in current state")), db)
      else
        match courseUpdate db id data with
        | .error _ =>
          (.error (.taxo (.VALIDATION_FAILED "database" "Failed to update course")), db)
        | .ok (none, db2) => (.error (.taxo (.NOT_FOUND id)), db2)
        | .ok (some updatedCourse, db2) => (.ok updatedCourse, db2)

/-- Delete response `{success, id}`. -/
structure DeleteOut where
  success : Bool
  id : String
deriving DecidableEq, Repr

/-- `deleteCourse` handler: existence check, enrollment-count guard,
hard delete.  This handler has no try/catch, so a raw storage failure
propagates unwrapped. -/
def deleteCourse (db : Db) (id : String) : Except HErr DeleteOut × Db :=
  match courseFindById db id with
  | .error e => (.error (.raw e), db)
  | .ok none => (.error (.taxo (.NOT_FOUND id)), db)
  | .ok (some _existingCourse) =>
    match enrollmentTotalByCourse db id with
    | .error e => (.error (.raw e), db)
    | .ok total =>
      if total > 0 then
        (.error (.taxo (.CANNOT_DELETE id
          ("Course has " ++ toString total ++ " active enrollments"))), db)
      else
        match courseDelete db id with
        | .error e => (.error (.raw e), db)
        | .ok (deleteSuccess, db2) =>
          if !deleteSuccess then (.error (.taxo (.NOT_FOUND id)), db2)
          else (.ok { success := true, id := id }, db2)

/-- `enrollCourse` handler: authentication gate, then (inside one try)
the domain pre-check `validateUserCanEnroll` whose every failure is
thrown as `ALREADY_ENROLLED{userId, courseId}` without an enrollment id,
followed by the handler's own course-existence and duplicate checks, the
write, and the re-fetch whose course price is converted with
`parseFloat`.  The catch re-throws taxonomy errors (they carry a `code`)
and wraps raw storage failures as `VALIDATION_FAILED{database}`. -/
def enrollCourse (db : Db) (sessionUserId : Option String) (courseId : String) :
    Except HErr EnrollmentWithCourseView × Db :=
  match sessionUserId with
  | none => (.error (.taxo (.UNAUTHORIZED "enroll-course")), db)
  | some userId =>
    let validationResult := validateUserCanEnroll db userId courseId
    if !validationResult.canEnroll then
      (.error (.taxo (.ALREADY_ENROLLED userId courseId none)), db)
    else
      match courseFindById db courseId with
      | .error _ =>
        (.error (.taxo (.VALIDATION_FAILED "database" "Failed to enroll in course")), db)
      | .ok none => (.error (.taxo (.COURSE_NOT_FOUND courseId)), db)
      | .ok (some _course) =>
        match enrollmentFindByUserAndCourse db userId courseId with
        | .error _ =>
          (.error (.taxo (.VALIDATION_FAILED "database" "Failed to enroll in course")), db)
        | .ok (some existingEnrollment) =>
          (.error (.taxo (.ALREADY_ENROLLED userId courseId (some existingEnrollment.id))), db)
        | .ok none =>
          match enrollmentCreate db userId courseId with
          | .error _ =>
            (.error (.taxo (.VALIDATION_FAILED "database" "Failed to enroll in course")), db)
          | .ok (newEnrollment, db2) =>
            match enrollmentFindById db2 newEnrollment.id with
            | .error _ =>
              (.error (.taxo (.VALIDATION_FAILED "database" "Failed to enroll in course")), db2)
            | .ok none =>
              (.error (.taxo (.ENROLLMENT_FAILED userId courseId
                "Failed to retrieve created enrollment")), db2)
            | .ok (some (en, courseRow)) =>
              (.ok { id := en.id, userId := en.userId, courseId := en.courseId,
                     enrolledAt := en.enrolledAt,
                     course := courseRow.map toNumericPriceView }, db2)

/-- Get-my-courses response (`myCourses` output schema).  The `_display`
and `_statistics` decorations (locale-formatted dates, float statistics
rendered with JS number formatting) are display metadata derived from
the same rows and are not modelled; no claim refers to them. -/
structure MyCoursesOut where
  enrollments : List EnrollmentWithCourseView
  total : Nat
  limit : Nat
  offset : Nat
deriving DecidableEq, Repr

/-- `getMyCourses` handler: authentication gate, paginated fetch of the
caller's enrollments joined with their courses, each course price
converted with `parseFloat`.  This handler has no try/catch, so a raw
storage failure propagates unwrapped. -/
def getMyCourses (db : Db) (sessionUserId : Option String)
    (limitArg offsetArg : Option Nat) : Except HErr MyCoursesOut :=
  let limit := limitArg.getD 50
  let offset := offsetArg.getD 0
  match sessionUserId with
  | none => .error (.taxo (.UNAUTHORIZED "get-my-courses"))
  | some userId =>
    match enrollmentFindByUser db userId limit offset with
    | .error e => .error (.raw e)
    | .ok (rows, total) =>
      .ok { enrollments := rows.map (fun r =>
              { id := r.1.id, userId := r.1.userId, courseId := r.1.courseId,
                enrolledAt := r.1.enrolledAt,
                course := r.2.map toNumericPriceView }),
            total := total, limit := limit, offset := offset }

/-- Failure list contributed by one per-field check of
`validateCompleteCourse`: empty when the field was not checked or its
validator passed, a singleton otherwise. -/
def optFailures (r : Option CourseValidationResult) : List CourseValidationResult :=
  match r with
  | none => []
  | some res => if res.valid then [] else [res]

/-- Spec-side reading of the rating rule: the rating parses to a number
in [1.0, 5.0], and if the price parses to exactly 0 the rating is at
most 3.0. -/
def ratingRuleHolds (r p : String) : Bool :=
  match jsParseFloat r with
  | none => false
  | some q =>
    decide (MIN_RATING ≤ q) && decide (q ≤ MAX_RATING) &&
      (if jsParseFloat p = some 0 then decide (q ≤ 3) else true)

/-- Boundary schema pattern for prices (the schema-layer regex accepting
one or more digits optionally followed by a dot and one or two
digits). -/
def boundaryPriceRegex (s : String) : Bool :=
  let d := lexDigits s.data 0 0
  decide (d.2.1 > 0) &&
    (match d.2.2 with
     | [] => true
     | '.' :: rest =>
       decide (rest.length ≥ 1) && decide (rest.length ≤ 2) && rest.all Char.isDigit
     | _ => false)

/-- Tests whether the first character list is a prefix of the second. -/
def charsPrefix : List Char → List Char → Bool
  | [], _ => true
  | _ :: _, [] => false
  | a :: as, b :: bs => a == b && charsPrefix as bs

/-- Tests whether the first character list occurs contiguously inside
the second (used to state that an error reason does or does not mention
a given tag). -/
def charsInfix (needle : List Char) : List Char → Bool
  | [] => charsPrefix needle []
  | c :: cs => charsPrefix needle (c :: cs) || charsInfix needle cs

theorem accum_step (b : Bool) (X : List CourseValidationResult)
    (r : CourseValidationResult) :
    (if b then X else X ++ [r]) = X ++ (if b then [] else [r]) := by
  cases b <;> simp

/-- Structural form of `validateCompleteCourse`: the five per-field
checks contribute their failures in the fixed order name, price,
categoryTag, rating (only when the price is also present), thumbnail. -/
theorem validateCompleteCourse_concat (d : CourseData) :
    validateCompleteCourse d =
      optFailures (d.name.map validateCourseName) ++
      optFailures (d.price.map validateCoursePrice) ++
      optFailures (d.categoryTag.map validateCategoryTags) ++
      optFailures (match d.rating, d.price with
        | some r, some p => some (validateCourseRating r p)
        | _, _ => none) ++
      optFailures (d.thumbnail.map validateThumbnailUrl) := by
  obtain ⟨n, p, c, t, r⟩ := d
  simp only [validateCompleteCourse, optFailures]
  cases n <;> cases p <;> cases c <;> cases t <;> cases r <;>
    (try simp only [accum_step]) <;> simp

theorem validateCourseRating_field_of_invalid (r : Option String) (p : String) :
    (validateCourseRating r p).valid = false →
    (validateCourseRating r p).field = some "rating" := by
  cases r with
  | none => simp [validateCourseRating]
  | some s =>
    simp only [validateCourseRating]
    split
    · simp
    · split
      · simp
      · split
        · simp
        · split <;> simp

theorem validateCourseRating_valid_eq (s p : String) (hs : s ≠ "") :
    (validateCourseRating (some s) p).valid = ratingRuleHolds s p := by
  simp only [validateCourseRating, ratingRuleHolds]
  rw [if_neg hs]
  cases hq : jsParseFloat s with
  | none => rfl
  | some q =>
    by_cases h1 : q < MIN_RATING
    · simp [h1, not_le.mpr h1]
    · by_cases h2 : q > MAX_RATING
      · simp [h1, h2, not_le.mpr h2]
      · by_cases h3 : jsParseFloat p = some 0
        · by_cases h4 : q > 3
          · simp [h1, h2, h3, h4, not_lt.mp h1, not_lt.mp h2, not_le.mpr h4]
          · simp [h1, h2, h3, h4, not_lt.mp h1, not_lt.mp h2, not_lt.mp h4]
        · simp [h1, h2, h3, not_lt.mp h1, not_lt.mp h2]

theorem contains_whitelist (t : String) :
    VALID_CATEGORY_TAGS.contains t = true ↔ (t = "prakerja" ∨ t = "spl") := by
  constructor
  · intro h
    have : t ∈ VALID_CATEGORY_TAGS := List.elem_iff.mp h
    simpa [VALID_CATEGORY_TAGS] using this
  · intro h
    apply List.elem_iff.mpr
    rcases h with h | h <;> simp [VALID_CATEGORY_TAGS, h]

/-- C10: `validateCoursePrice` accepts a price string iff `parseFloat`
turns it into a value in [0, 99999999.99]; in particular it accepts
strings the boundary schema pattern rejects, such as "1.234" (three
fractional digits) and "1e3" (exponent notation), and it enforces the
upper bound 99999999.99 (rejecting "100000000", which the boundary
pattern accepts). -/
theorem C10_price_validator_parseFloat_range :
    (∀ s : String, (validateCoursePrice s).valid = true ↔
      ∃ q, jsParseFloat s = some q ∧ MIN_PRICE ≤ q ∧ q ≤ MAX_PRICE) ∧
    (boundaryPriceRegex "1.234" = false ∧ (validateCoursePrice "1.234").valid = true) ∧
    (boundaryPriceRegex "1e3" = false ∧ (validateCoursePrice "1e3").valid = true) ∧
    ((validateCoursePrice "100000000").valid = false ∧
      boundaryPriceRegex "100000000" = true) := by
  refine ⟨?_, by decide, by decide, by decide⟩
  intro s
  unfold validateCoursePrice
  cases hq : jsParseFloat s with
  | none => simp
  | some q =>
    by_cases h1 : q < MIN_PRICE
    · simp [h1, not_le.mpr h1]
    · by_cases h2 : q > MAX_PRICE
      · simp [h1, h2, not_le.mpr h2]
      · simp [h1, h2, not_lt.mp h1, not_lt.mp h2]

/-- Witness for C10 at concrete inputs. -/
theorem C10_price_validator_parseFloat_range_witness :
    (validateCoursePrice "0.00").valid = true ∧ boundaryPriceRegex "1e3" = false :=
  ⟨(C10_price_validator_parseFloat_range.1 "0.00").mpr
      ⟨0, by decide, by decide, by decide⟩,
    C10_price_validator_parseFloat_range.2.2.1.1⟩

/-- C5 counterexample: an input whose rating field is present (value
"9.9", out of the [1.0, 5.0] range even against a nonzero price) but
whose price field is absent produces no validation failure at all — the
rating rule is skipped, contradicting "for every input in which the
rating field is present, the rating rule is evaluated". -/
theorem C5_counterexample_rating_skipped_without_price :
    validateCompleteCourse { rating := some (some "9.9") } = [] ∧
    (validateCourseRating (some "9.9") "1.00").valid = false := by decide

/-- C5 (amended): the rating rule is evaluated only when both the
rating and the price fields are present; then an invalid rating is
reported with field "rating" inside the returned failure list, and for
a present, non-null, non-empty rating validity coincides with the rule
"parses into [1.0, 5.0], and at most 3.0 when the price parses to
exactly 0". -/
theorem C5_rating_rule_when_price_present :
    (∀ (d : CourseData) (r : Option String) (p : String),
      d.rating = some r → d.price = some p →
      (validateCourseRating r p).valid = false →
      validateCourseRating r p ∈ validateCompleteCourse d) ∧
    (∀ (r : Option String) (p : String), (validateCourseRating r p).valid = false →
      (validateCourseRating r p).field = some "rating") ∧
    (∀ (s p : String), s ≠ "" →
      (validateCourseRating (some s) p).valid = ratingRuleHolds s p) := by
  refine ⟨?_, validateCourseRating_field_of_invalid, ?_⟩
  · intro d r p hr hp hinv
    have hc := validateCompleteCourse_concat d
    rw [hr, hp] at hc
    rw [hc]
    simp [optFailures, hinv]
  · intro s p hs
    exact validateCourseRating_valid_eq s p hs

/-- Witness for C5 at concrete inputs: with rating "9.9" and price
"1.00" both present the failure is reported, and the rating rule value
is computed for ("4.5", "0.00"). -/
theorem C5_rating_rule_when_price_present_witness :
    validateCourseRating (some "9.9") "1.00" ∈
      validateCompleteCourse { rating := some (some "9.9"), price := some "1.00" } ∧
    (validateCourseRating (some "4.5") "0.00").valid = ratingRuleHolds "4.5" "0.00" :=
  ⟨C5_rating_rule_when_price_present.1
      { rating := some (some "9.9"), price := some "1.00" }
      (some "9.9") "1.00" rfl rfl (by decide),
    C5_rating_rule_when_price_present.2.2 "4.5" "0.00" (by decide)⟩

/-- C6 counterexample: the list ["prakerja", "spl", "zzz"] contains the
unknown tag "zzz", yet the returned failure carries the max-count
reason, which does not mention "zzz" — contradicting "when unknown tags
are present, the returned failure reason names exactly the offending
tags". -/
theorem C6_counterexample_overlong_list_reason :
    (validateCategoryTags ["prakerja", "spl", "zzz"]).valid = false ∧
    ("zzz" ∈ (["prakerja", "spl", "zzz"].filter
      (fun t => !(VALID_CATEGORY_TAGS.contains t)))) ∧
    (validateCategoryTags ["prakerja", "spl", "zzz"]).reason =
      some "Maximum 2 category tags allowed" ∧
    charsInfix "zzz".data "Maximum 2 category tags allowed".data = false := by decide

/-- C6 (amended): `validateCategoryTags` accepts a list iff it is
non-empty, of length at most 2, and every element is exactly "prakerja"
or "spl" (the whitelist membership test is spelled out by the last
conjunct); and when a non-empty list of length at most 2 contains
unknown tags, the failure reason names exactly the offending tags.  (A
longer list fails with the max-count reason instead, which names
none.) -/
theorem C6_categoryTags_valid_iff_and_naming :
    (∀ tags : List String, (validateCategoryTags tags).valid = true ↔
      (tags ≠ [] ∧ tags.length ≤ 2 ∧ ∀ t ∈ tags, t = "prakerja" ∨ t = "spl")) ∧
    (∀ tags : List String, tags ≠ [] → tags.length ≤ 2 →
      tags.filter (fun t => !(VALID_CATEGORY_TAGS.contains t)) ≠ [] →
      validateCategoryTags tags =
        { valid := false,
          reason := some ("Invalid category tags: " ++ String.intercalate ", "
            (tags.filter (fun t => !(VALID_CATEGORY_TAGS.contains t))) ++
            ". Valid tags: prakerja, spl"),
          field := some "categoryTag" }) ∧
    (∀ t : String, VALID_CATEGORY_TAGS.contains t = true ↔
      (t = "prakerja" ∨ t = "spl")) := by
  refine ⟨?_, ?_, contains_whitelist⟩
  · intro tags
    simp only [validateCategoryTags, MAX_CATEGORY_TAGS]
    by_cases h0 : tags = []
    · simp [h0]
    · rw [if_neg h0]
      by_cases h1 : tags.length > 2
      · rw [if_pos h1]
        simp [h0, not_le.mpr h1]
      · rw [if_neg h1]
        have hlen : tags.length ≤ 2 := not_lt.mp h1
        by_cases h2 : tags.filter (fun tag => !(VALID_CATEGORY_TAGS.contains tag)) = []
        · rw [if_pos h2]
          simp only [true_iff]
          refine ⟨h0, hlen, ?_⟩
          intro t ht
          have := List.filter_eq_nil_iff.mp h2 t ht
          rw [← contains_whitelist t]
          simpa using this
        · rw [if_neg h2]
          constructor
          · intro h
            exact absurd h (by simp)
          · intro h
            exfalso
            apply h2
            rw [List.filter_eq_nil_iff]
            intro a ha
            have hc := (contains_whitelist a).mpr (h.2.2 a ha)
            simp
            exact List.elem_iff.mp hc
  · intro tags h0 hlen hbad
    simp only [validateCategoryTags, MAX_CATEGORY_TAGS]
    rw [if_neg h0, if_neg (not_lt.mpr hlen), if_neg hbad]

/-- Witness for C6 at concrete inputs: ["prakerja"] is valid, and
["foo"] fails naming exactly "foo". -/
theorem C6_categoryTags_valid_iff_and_naming_witness :
    (validateCategoryTags ["prakerja"]).valid = true ∧
    validateCategoryTags ["foo"] =
      { valid := false,
        reason := some ("Invalid category tags: " ++ String.intercalate ", "
          (["foo"].filter (fun t => !(VALID_CATEGORY_TAGS.contains t))) ++
          ". Valid tags: prakerja, spl"),
        field := some "categoryTag" } :=
  ⟨(C6_categoryTags_valid_iff_and_naming.1 ["prakerja"]).mpr (by decide),
    C6_categoryTags_valid_iff_and_naming.2.1 ["foo"] (by decide) (by decide) (by decide)⟩

/-- C8: `validateCompleteCourse` evaluates the present fields in the
fixed order name, price, categoryTag, rating, thumbnail and returns
their failures in exactly that order; the create and update handlers
surface exactly the first failure of that list as
`VALIDATION_FAILED{field, reason}`, regardless of any later failures
(fail-fast, never an aggregate). -/
theorem C8_fail_fast_first_failure_ordering :
    (∀ d : CourseData, validateCompleteCourse d =
      optFailures (d.name.map validateCourseName) ++
      optFailures (d.price.map validateCoursePrice) ++
      optFailures (d.categoryTag.map validateCategoryTags) ++
      optFailures (match d.rating, d.price with
        | some r, some p => some (validateCourseRating r p)
        | _, _ => none) ++
      optFailures (d.thumbnail.map validateThumbnailUrl)) ∧
    (∀ (db : Db) (s : Option String) (input : CreateCourseInput)
        (f : CourseValidationResult) (rest : List CourseValidationResult),
      validateCompleteCourse (createInputData input) = f :: rest →
      createCourse db s input =
        (.error (.taxo (.VALIDATION_FAILED (f.field.getD "unknown")
          (f.reason.getD "Validation failed"))), db)) ∧
    (∀ (db : Db) (id : String) (data : UpdateCourseInput) (c : Course)
        (f : CourseValidationResult) (rest : List CourseValidationResult),
      db.dbError = none →
      db.courses.find? (fun x => x.id == id) = some c →
      validateCompleteCourse (mergeForValidation c data) = f :: rest →
      updateCourse db id data =
        (.error (.taxo (.VALIDATION_FAILED (f.field.getD "unknown")
          (f.reason.getD "Validation failed"))), db)) := by
  refine ⟨validateCompleteCourse_concat, ?_, ?_⟩
  · intro db s input f rest h
    simp [createCourse, h]
  · intro db id data c f rest hdb hfind h
    simp [updateCourse, courseFindById, hdb, hfind, h]

/-- Witness for C8: an input with an invalid name and an invalid price
surfaces the name failure on create, and an update merging an invalid
price surfaces the price failure. -/
theorem C8_fail_fast_first_failure_ordering_witness :
    createCourse { } none
        { name := "", price := "abc", categoryTag := some ["prakerja"] } =
      (.error (.taxo (.VALIDATION_FAILED
        ((some "name").getD "unknown")
        ((some "Course name is required").getD "Validation failed"))), { }) ∧
    updateCourse
        { courses := [{ id := "c1", name := "Intro", price := "50000.00",
                        categoryTag := ["prakerja"] }] }
        "c1" { price := some "-5" } =
      (.error (.taxo (.VALIDATION_FAILED
        ((some "price").getD "unknown")
        ((some "Price cannot be negative").getD "Validation failed"))),
        { courses := [{ id := "c1", name := "Intro", price := "50000.00",
                        categoryTag := ["prakerja"] }] }) :=
  ⟨C8_fail_fast_first_failure_ordering.2.1 { } none
      { name := "", price := "abc", categoryTag := some ["prakerja"] }
      { valid := false, reason := some "Course name is required", field := some "name" }
      [{ valid := false, reason := some "Price must be a valid number",
         field := some "price" }]
      (by decide),
    C8_fail_fast_first_failure_ordering.2.2
      { courses := [{ id := "c1", name := "Intro", price := "50000.00",
                      categoryTag := ["prakerja"] }] }
      "c1" { price := some "-5" }
      { id := "c1", name := "Intro", price := "50000.00", categoryTag := ["prakerja"] }
      { valid := false, reason := some "Price cannot be negative", field := some "price" }
      []
      (by decide) (by decide) (by decide)⟩

/-- C9: the create operation needs no authentication; for every valid
input it succeeds, the created record's `createdBy` equals the caller's
id when authenticated and is absent when anonymous, and the other
persisted fields are taken from the input (absent optional fields fall
back to the column defaults), with server-assigned id and
timestamps. -/
theorem C9_create_attribution_and_fields :
    ∀ (db : Db) (sessionUserId : Option String) (input : CreateCourseInput),
      db.dbError = none →
      validateCompleteCourse (createInputData input) = [] →
      ∃ (c : Course) (db2 : Db),
        createCourse db sessionUserId input = (.ok c, db2) ∧
        c.createdBy = sessionUserId ∧
        c.name = input.name ∧
        c.price = input.price ∧
        c.categoryTag = input.categoryTag.getD [] ∧
        c.thumbnail = input.thumbnail.getD none ∧
        c.rating = input.rating.getD none ∧
        c.id = db.freshId ∧
        c.createdAt = db.now ∧
        c.updatedAt = db.now ∧
        db2.courses = db.courses ++ [c] := by
  intro db sessionUserId input hdb hvalid
  have hc : createCourse db sessionUserId input =
      (.ok { id := db.freshId, name := input.name, price := input.price,
             categoryTag := input.categoryTag.getD [],
             thumbnail := input.thumbnail.getD none,
             rating := input.rating.getD none,
             createdBy := sessionUserId,
             createdAt := db.now, updatedAt := db.now },
        { db with courses := db.courses ++
            [{ id := db.freshId, name := input.name, price := input.price,
               categoryTag := input.categoryTag.getD [],
               thumbnail := input.thumbnail.getD none,
               rating := input.rating.getD none,
               createdBy := sessionUserId,
               createdAt := db.now, updatedAt := db.now }] }) := by
    simp [createCourse, hvalid, courseCreate, hdb]
  exact ⟨_, _, hc, rfl, rfl, rfl, rfl, rfl, rfl, rfl, rfl, rfl, rfl⟩

/-- Witness for C9: the same valid body created anonymously and by the
authenticated user "u7". -/
theorem C9_create_attribution_and_fields_witness :
    (∃ (c : Course) (db2 : Db),
      createCourse { } none
          { name := "Intro", price := "0.00", categoryTag := some ["prakerja"] } =
        (.ok c, db2) ∧
      c.createdBy = none ∧
      c.name = "Intro" ∧ c.price = "0.00" ∧
      c.categoryTag = (some ["prakerja"]).getD [] ∧
      c.thumbnail = (none : Option (Option String)).getD none ∧
      c.rating = (none : Option (Option String)).getD none ∧
      c.id = ({ } : Db).freshId ∧ c.createdAt = ({ } : Db).now ∧
      c.updatedAt = ({ } : Db).now ∧ db2.courses = ({ } : Db).courses ++ [c]) ∧
    (∃ (c : Course) (db2 : Db),
      createCourse { } (some "u7")
          { name := "Intro", price := "0.00", categoryTag := some ["prakerja"] } =
        (.ok c, db2) ∧
      c.createdBy = some "u7" ∧
      c.name = "Intro" ∧ c.price = "0.00" ∧
      c.categoryTag = (some ["prakerja"]).getD [] ∧
      c.thumbnail = (none : Option (Option String)).getD none ∧
      c.rating = (none : Option (Option String)).getD none ∧
      c.id = ({ } : Db).freshId ∧ c.createdAt = ({ } : Db).now ∧
      c.updatedAt = ({ } : Db).now ∧ db2.courses = ({ } : Db).courses ++ [c]) :=
  ⟨C9_create_attribution_and_fields { } none
      { name := "Intro", price := "0.00", categoryTag := some ["prakerja"] }
      rfl (by decide),
    C9_create_attribution_and_fields { } (some "u7")
      { name := "Intro", price := "0.00", categoryTag := some ["prakerja"] }
      rfl (by decide)⟩

/-- C7: for an existing course under healthy storage, the delete
handler raises `CANNOT_DELETE{id, reason}` with a reason naming the
enrollment count iff the number of enrollments referencing the course
is positive (leaving the store unchanged); when the count is zero it
deletes the row and returns `{success := true, id}`. -/
theorem C7_delete_enrollment_guard :
    ∀ (db : Db) (id : String) (c : Course),
      db.dbError = none →
      db.courses.find? (fun x => x.id == id) = some c →
      ((0 < (db.enrollments.filter (fun en => en.courseId == id)).length →
        deleteCourse db id =
          (.error (.taxo (.CANNOT_DELETE id ("Course has " ++
            toString (db.enrollments.filter (fun en => en.courseId == id)).length ++
            " active enrollments"))), db)) ∧
      ((db.enrollments.filter (fun en => en.courseId == id)).length = 0 →
        deleteCourse db id =
          (.ok { success := true, id := id },
            { db with courses := db.courses.filter (fun x => !(x.id == id)) }))) := by
  intro db id c hdb hfind
  constructor
  · intro hpos
    simp [deleteCourse, courseFindById, enrollmentTotalByCourse, hdb, hfind, hpos]
  · intro hzero
    have hmem : c ∈ db.courses := List.mem_of_find?_eq_some hfind
    have hpred := List.find?_some hfind
    have hany : db.courses.any (fun x => x.id == id) = true :=
      List.any_eq_true.mpr ⟨c, hmem, hpred⟩
    simp [deleteCourse, courseFindById, enrollmentTotalByCourse, courseDelete,
      hdb, hfind, hzero, hany]

/-- Witness for C7: deleting course "c1" is blocked while enrollment
"e1" references it, and succeeds in a store without enrollments. -/
theorem C7_delete_enrollment_guard_witness :
    deleteCourse
        { courses := [{ id := "c1", name := "Intro", price := "50000.00",
                        categoryTag := ["prakerja"] }],
          enrollments := [{ id := "e1", userId := "u1", courseId := "c1" }] } "c1" =
      (.error (.taxo (.CANNOT_DELETE "c1" ("Course has " ++
        toString (([{ id := "e1", userId := "u1", courseId := "c1" }] :
          List Enrollment).filter (fun en => en.courseId == "c1")).length ++
        " active enrollments"))),
        { courses := [{ id := "c1", name := "Intro", price := "50000.00",
                        categoryTag := ["prakerja"] }],
          enrollments := [{ id := "e1", userId := "u1", courseId := "c1" }] }) ∧
    deleteCourse
        { courses := [{ id := "c1", name := "Intro", price := "50000.00",
                        categoryTag := ["prakerja"] }] } "c1" =
      (.ok { success := true, id := "c1" },
        { ({ courses := [{ id := "c1", name := "Intro", price := "50000.00",
                           categoryTag := ["prakerja"] }] } : Db) with
          courses := ([{ id := "c1", name := "Intro", price := "50000.00",
                         categoryTag := ["prakerja"] }] :
            List Course).filter (fun x => !(x.id == "c1")) }) :=
  ⟨(C7_delete_enrollment_guard
      { courses := [{ id := "c1", name := "Intro", price := "50000.00",
                      categoryTag := ["prakerja"] }],
        enrollments := [{ id := "e1", userId := "u1", courseId := "c1" }] } "c1"
      { id := "c1", name := "Intro", price := "50000.00", categoryTag := ["prakerja"] }
      rfl (by decide)).1 (by decide),
    (C7_delete_enrollment_guard
      { courses := [{ id := "c1", name := "Intro", price := "50000.00",
                      categoryTag := ["prakerja"] }] } "c1"
      { id := "c1", name := "Intro", price := "50000.00", categoryTag := ["prakerja"] }
      rfl (by decide)).2 (by decide)⟩

/-- C4 counterexample: with the storage fault "connection reset" set,
the delete handler returns the raw storage error unchanged — no
`VALIDATION_FAILED{field: "database"}` translation happens there, so a
raw storage error does escape a handler. -/
theorem C4_counterexample_delete_raw_error :
    deleteCourse { dbError := some "connection reset" } "c1" =
      (.error (.raw "connection reset"), { dbError := some "connection reset" }) := by
  decide

/-- C4 (amended): the create and update handlers catch at the handler
boundary, re-raising a raw storage failure as
`VALIDATION_FAILED{field: "database"}` while an already-thrown taxonomy
error (recognised by its `code`) passes through unchanged; the
delete-course and get-my-courses handlers have no such catch, and a
storage failure there propagates as the raw error; and in the enroll
handler a storage failure never reaches the handler's own catch at all:
the `validateUserCanEnroll` pre-check's internal catch swallows it and
the handler surfaces `ALREADY_ENROLLED{userId, courseId}`, not
`VALIDATION_FAILED{field: "database"}`. -/
theorem C4_storage_error_boundary :
    (∀ (db : Db) (e id : String) (data : UpdateCourseInput), db.dbError = some e →
      (updateCourse db id data).fst =
        .error (.taxo (.VALIDATION_FAILED "database" "Failed to update course"))) ∧
    (∀ (db : Db) (e : String) (s : Option String) (input : CreateCourseInput),
      db.dbError = some e →
      validateCompleteCourse (createInputData input) = [] →
      (createCourse db s input).fst =
        .error (.taxo (.VALIDATION_FAILED "database" "Failed to create course"))) ∧
    (∀ (db : Db) (id : String) (data : UpdateCourseInput), db.dbError = none →
      db.courses.find? (fun x => x.id == id) = none →
      (updateCourse db id data).fst = .error (.taxo (.NOT_FOUND id))) ∧
    (∀ (db : Db) (e id : String), db.dbError = some e →
      deleteCourse db id = (.error (.raw e), db)) ∧
    (∀ (db : Db) (e uid : String) (lim off : Option Nat), db.dbError = some e →
      getMyCourses db (some uid) lim off = .error (.raw e)) ∧
    (∀ (db : Db) (e uid cid : String), db.dbError = some e →
      enrollCourse db (some uid) cid =
        (.error (.taxo (.ALREADY_ENROLLED uid cid none)), db)) := by
  refine ⟨?_, ?_, ?_, ?_, ?_, ?_⟩
  · intro db e id data h
    simp [updateCourse, courseFindById, h]
  · intro db e s input h hv
    simp [createCourse, hv, courseCreate, h]
  · intro db id data h hf
    simp [updateCourse, courseFindById, h, hf]
  · intro db e id h
    simp [deleteCourse, courseFindById, h]
  · intro db e uid lim off h
    simp [getMyCourses, enrollmentFindByUser, h]
  · intro db e uid cid h
    have hpre : (validateUserCanEnroll db uid cid).canEnroll = false := by
      simp only [validateUserCanEnroll, validateEnrollmentData]
      split_ifs <;> simp [h]
    simp [enrollCourse, hpre]

/-- Witness for C4 at concrete inputs: wrapped failures for update and
create, an unchanged `NOT_FOUND` pass-through, raw propagation for
delete and get-my-courses, and the `ALREADY_ENROLLED` surfacing of a
storage fault during enroll. -/
theorem C4_storage_error_boundary_witness :
    (updateCourse { dbError := some "boom" } "c1" { }).fst =
      .error (.taxo (.VALIDATION_FAILED "database" "Failed to update course")) ∧
    (createCourse { dbError := some "boom" } none
        { name := "Intro", price := "0.00", categoryTag := some ["prakerja"] }).fst =
      .error (.taxo (.VALIDATION_FAILED "database" "Failed to create course")) ∧
    (updateCourse { } "c9" { }).fst = .error (.taxo (.NOT_FOUND "c9")) ∧
    deleteCourse { dbError := some "boom" } "c9" =
      (.error (.raw "boom"), { dbError := some "boom" }) ∧
    getMyCourses { dbError := some "boom" } (some "u1") none none =
      .error (.raw "boom") ∧
    enrollCourse { dbError := some "boom" } (some "u1") "c1" =
      (.error (.taxo (.ALREADY_ENROLLED "u1" "c1" none)),
        { dbError := some "boom" }) :=
  ⟨C4_storage_error_boundary.1 { dbError := some "boom" } "boom" "c1" { } rfl,
    C4_storage_error_boundary.2.1 { dbError := some "boom" } "boom" none
      { name := "Intro", price := "0.00", categoryTag := some ["prakerja"] }
      rfl (by decide),
    C4_storage_error_boundary.2.2.1 { } "c9" { } rfl (by decide),
    C4_storage_error_boundary.2.2.2.1 { dbError := some "boom" } "boom" "c9" rfl,
    C4_storage_error_boundary.2.2.2.2.1 { dbError := some "boom" } "boom" "u1"
      none none rfl,
    C4_storage_error_boundary.2.2.2.2.2 { dbError := some "boom" } "boom" "u1"
      "c1" rfl⟩

/-- C1: with user "u1" present and no course "c0", the enroll handler
returns `ALREADY_ENROLLED{userId, courseId}` — the domain pre-check
turns its "Course not found" result into that error and the handler's
own `COURSE_NOT_FOUND` branch is unreachable on this path — instead of
the `COURSE_NOT_FOUND{courseId}` the spec (and the handler's dead
branch) intend. -/
theorem C1_enroll_missing_course_raises_already_enrolled :
    enrollCourse { users := ["u1"] } (some "u1") "c0" =
      (.error (.taxo (.ALREADY_ENROLLED "u1" "c0" none)), { users := ["u1"] }) ∧
    (validateUserCanEnroll { users := ["u1"] } "u1" "c0").reason =
      some "Course not found" ∧
    Taxo.ALREADY_ENROLLED "u1" "c0" none ≠ Taxo.COURSE_NOT_FOUND "c0" := by
  decide

/-- C2: enrolling "u1" in "c1" a second time (enrollment "e1" already
links them) raises `ALREADY_ENROLLED{userId, courseId}` with no
`enrollmentId`, although the pre-check found and reported "e1"; the
spec requires the payload to include the existing enrollment's id
(the handler branch that would attach it is unreachable). -/
theorem C2_enroll_duplicate_omits_enrollment_id :
    enrollCourse
        { users := ["u1"],
          courses := [{ id := "c1", name := "Intro", price := "50000.00",
                        categoryTag := ["prakerja"] }],
          enrollments := [{ id := "e1", userId := "u1", courseId := "c1" }] }
        (some "u1") "c1" =
      (.error (.taxo (.ALREADY_ENROLLED "u1" "c1" none)),
        { users := ["u1"],
          courses := [{ id := "c1", name := "Intro", price := "50000.00",
                        categoryTag := ["prakerja"] }],
          enrollments := [{ id := "e1", userId := "u1", courseId := "c1" }] }) ∧
    (validateUserCanEnroll
        { users := ["u1"],
          courses := [{ id := "c1", name := "Intro", price := "50000.00",
                        categoryTag := ["prakerja"] }],
          enrollments := [{ id := "e1", userId := "u1", courseId := "c1" }] }
        "u1" "c1").enrollmentIdDetail = some "e1" := by
  decide

/-- C3 counterexample: a successful enroll returns the course with its
price replaced by the `parseFloat` number 50000, not the stored decimal
string "50000.00" — the enroll response does not carry the price as the
stored fixed-point decimal string. -/
theorem C3_counterexample_enroll_price_numeric :
    (enrollCourse
        { users := ["u1"],
          courses := [{ id := "c1", name := "Intro", price := "50000.00",
                        categoryTag := ["prakerja"] }] }
        (some "u1") "c1").fst =
      .ok { id := "generated-id", userId := "u1", courseId := "c1", enrolledAt := 0,
            course := some { id := "c1", name := "Intro",
                             price := .num (some 50000),
                             categoryTag := ["prakerja"], thumbnail := none,
                             rating := none, createdBy := none,
                             createdAt := 0, updatedAt := 0 } } ∧
    PriceRepr.num (some 50000) ≠ PriceRepr.str "50000.00" := by decide

/-- C3 (amended): the get, list, create and update responses keep the
stored decimal string, but the enroll and get-my-courses handlers
convert the course price with `parseFloat`: every course object in
their responses carries `PriceRepr.num (jsParseFloat stored.price)` for
the stored row, never the string. -/
theorem C3_enroll_my_courses_price_parseFloat :
    (∀ (db db2 : Db) (uid cid : String) (out : EnrollmentWithCourseView),
      enrollCourse db (some uid) cid = (.ok out, db2) →
      ∀ cv, out.course = some cv →
        ∃ stored, db2.courses.find? (fun c => c.id == out.courseId) = some stored ∧
          cv.price = .num (jsParseFloat stored.price)) ∧
    (∀ (db : Db) (uid : String) (lim off : Option Nat) (out : MyCoursesOut),
      getMyCourses db (some uid) lim off = .ok out →
      ∀ ev, ev ∈ out.enrollments → ∀ cv, ev.course = some cv →
        ∃ stored, db.courses.find? (fun c => c.id == ev.courseId) = some stored ∧
          cv.price = .num (jsParseFloat stored.price)) := by
  constructor
  · intro db db2 uid cid out h cv hcv
    simp only [enrollCourse] at h
    split at h
    · simp at h
    · split at h
      · simp at h
      · simp at h
      · split at h
        · simp at h
        · simp at h
        · split at h
          · simp at h
          · rename_i newEnr db2mk hcreate
            split at h
            · simp at h
            · simp at h
            · rename_i en courseRow hfound
              simp only [Prod.mk.injEq, Except.ok.injEq] at h
              obtain ⟨hout, hdb2⟩ := h
              subst hdb2
              subst hout
              simp only [enrollmentFindById] at hfound
              split at hfound
              · simp at hfound
              · split at hfound
                · simp at hfound
                · rename_i en2 hen2
                  simp only [Except.ok.injEq, Option.some.injEq, Prod.mk.injEq] at hfound
                  obtain ⟨heq, hrow⟩ := hfound
                  subst heq
                  have hcv2 : courseRow.map toNumericPriceView = some cv := hcv
                  rcases Option.map_eq_some'.mp hcv2 with ⟨stored, hstored, hcveq⟩
                  refine ⟨stored, ?_, ?_⟩
                  · show List.find? (fun c => c.id == en2.courseId) db2mk.courses =
                      some stored
                    rw [hrow]
                    exact hstored
                  · rw [← hcveq]
                    rfl
  · intro db uid lim off out h ev hev cv hcv
    simp only [getMyCourses] at h
    split at h
    · simp at h
    · rename_i pr hfind
      simp only [Except.ok.injEq] at h
      subst h
      simp only [enrollmentFindByUser] at hfind
      split at hfind
      · simp at hfind
      · simp only [Except.ok.injEq, Prod.mk.injEq] at hfind
        obtain ⟨hrows, htotal⟩ := hfind
        rcases List.mem_map.mp hev with ⟨r, hr, rfl⟩
        rw [← hrows] at hr
        rcases List.mem_map.mp hr with ⟨en, hen, rfl⟩
        have hcv2 :
            (db.courses.find? (fun c => c.id == en.courseId)).map toNumericPriceView =
              some cv := hcv
        rcases Option.map_eq_some'.mp hcv2 with ⟨stored, hstored, hcveq⟩
        refine ⟨stored, hstored, ?_⟩
        rw [← hcveq]
        rfl

/-- Witness for C3 at a concrete store: the enrolled course "c1" is the
stored row and the returned price is its `parseFloat` image. -/
theorem C3_enroll_my_courses_price_parseFloat_witness :
    ∃ stored,
      ({ users := ["u1"],
         courses := [{ id := "c1", name := "Intro", price := "50000.00",
                       categoryTag := ["prakerja"] }],
         enrollments := [{ id := "generated-id", userId := "u1", courseId := "c1",
                           enrolledAt := 0 }] } : Db).courses.find?
          (fun c => c.id == "c1") = some stored ∧
      PriceRepr.num (some 50000) = .num (jsParseFloat stored.price) :=
  C3_enroll_my_courses_price_parseFloat.1
    { users := ["u1"],
      courses := [{ id := "c1", name := "Intro", price := "50000.00",
                    categoryTag := ["prakerja"] }] }
    { users := ["u1"],
      courses := [{ id := "c1", name := "Intro", price := "50000.00",
                    categoryTag := ["prakerja"] }],
      enrollments := [{ id := "generated-id", userId := "u1", courseId := "c1",
                        enrolledAt := 0 }] }
    "u1" "c1"
    { id := "generated-id", userId := "u1", courseId := "c1", enrolledAt := 0,
      course := some { id := "c1", name := "Intro", price := .num (some 50000),
                       categoryTag := ["prakerja"], thumbnail := none,
                       rating := none, createdBy := none,
                       createdAt := 0, updatedAt := 0 } }
    (by decide)
    { id := "c1", name := "Intro", price := .num (some 50000),
      categoryTag := ["prakerja"], thumbnail := none, rating := none,
      createdBy := none, createdAt := 0, updatedAt := 0 }
    rfl
